import Mathlib

/-!
Shallow embedding of the search-lifecycle controller of the tool-discovery
frontend: the query validator, the request gateway failure classifier, the
progress simulator tick, the hook state machine of the search controller, and
the toast container deduplication. Definitions are translated from the
JavaScript source; machine strings are Lean strings, JavaScript numbers are
rationals, and the event loop is an explicit step relation over traces.
-/

/-- ASCII fragment of the JavaScript whitespace class used by trim and by the
regex class backslash-s. -/
def isJsWS (c : Char) : Bool :=
  c == ' ' || c == '\t' || c == '\n' || c == '\r' || c == '\x0b' || c == '\x0c'

/-- JavaScript String.prototype.trim restricted to ASCII whitespace. -/
def jsTrim (s : String) : String :=
  String.mk (((s.data.dropWhile isJsWS).reverse.dropWhile isJsWS).reverse)

/-- Lower-cased character list of a string, for the case-insensitive regexes. -/
def lowerChars (s : String) : List Char :=
  s.data.map Char.toLower

/-- The first list is a leading segment of the second. -/
def leadsWith : List Char → List Char → Bool
  | [], _ => true
  | _ :: _, [] => false
  | p :: ps, c :: cs => p == c && leadsWith ps cs

/-- The pattern occurs somewhere inside the character list. -/
def hasSub (p : List Char) : List Char → Bool
  | [] => leadsWith p []
  | c :: cs => leadsWith p (c :: cs) || hasSub p cs

/-- Drop the leading whitespace of a character list. -/
def skipWS : List Char → List Char
  | [] => []
  | c :: cs => if isJsWS c then skipWS cs else c :: cs

/-- Match of a keyword, one or more whitespace characters, then a second
keyword, anchored at the start of the list. -/
def gapMatchAt (k1 k2 : List Char) (s : List Char) : Bool :=
  leadsWith k1 s &&
    (match s.drop k1.length with
     | [] => false
     | c :: cs => isJsWS c && leadsWith k2 (skipWS (c :: cs)))

/-- Match of a semicolon, any whitespace, then a keyword, anchored at the
start of the list. -/
def semiMatchAt (k : List Char) (s : List Char) : Bool :=
  match s with
  | ';' :: cs => leadsWith k (skipWS cs)
  | _ => false

/-- Some suffix of the list satisfies the anchored matcher. -/
def anySuffix (p : List Char → Bool) : List Char → Bool
  | [] => p []
  | c :: cs => p (c :: cs) || anySuffix p cs

/-- Case-insensitive match of keyword, whitespace run, keyword anywhere in the
query, as in the SQL-injection regexes of the source. -/
def matchesGap (k1 k2 q : String) : Bool :=
  anySuffix (gapMatchAt (lowerChars k1) (lowerChars k2)) (lowerChars q)

/-- Case-insensitive match of semicolon, optional whitespace, keyword anywhere
in the query. -/
def matchesSemi (k q : String) : Bool :=
  anySuffix (semiMatchAt (lowerChars k)) (lowerChars q)

/-- The fixed markup and script-injection needles of the dangerous-content
check, each a case-insensitive literal substring test. -/
def dangerousNeedles : List String :=
  ["<script", "javascript:", "data:text/html", "vbscript:", "onload=",
   "onerror=", "<iframe", "<object", "<embed", "<link", "<meta", "<style"]

/-- Dangerous-content check of the source. -/
def hasDangerous (q : String) : Bool :=
  dangerousNeedles.any fun p => hasSub (lowerChars p) (lowerChars q)

/-- SQL-keyword pattern check of the source. -/
def hasSqlPattern (q : String) : Bool :=
  matchesGap "union" "select" q || matchesGap "drop" "table" q ||
  matchesGap "delete" "from" q || matchesGap "insert" "into" q ||
  matchesGap "update" "set" q ||
  matchesSemi "drop" q || matchesSemi "delete" q ||
  matchesSemi "insert" q || matchesSemi "update" q

/-- A word character of the regex class backslash-w. -/
def isWordChar (c : Char) : Bool :=
  decide ('a' ≤ c ∧ c ≤ 'z') || decide ('A' ≤ c ∧ c ≤ 'Z') ||
  decide ('0' ≤ c ∧ c ≤ '9') || c == '_'

/-- Count of characters that are neither word characters nor whitespace. -/
def specialCharCount (q : String) : Nat :=
  (q.data.filter fun c => !(isWordChar c) && !(isJsWS c)).length

/-- Excessive special character test of the source: the count exceeds the raw
length times 0.3. Embedded over naturals as ten times the count exceeding
three times the length, which is exactly the same comparison; the lemma
tooManySpecialChars_iff below restates it with the literal ratio. -/
def tooManySpecialChars (q : String) : Bool :=
  decide (10 * specialCharCount q > 3 * q.length)

/-- Result record of the client-side validator of SearchSection. -/
structure ValidationResult where
  isValid : Bool
  message : Option String
  deriving DecidableEq

/-- The validateQuery function of SearchSection, checks in source order with
short-circuit on the first failure. -/
def validateQuery (query : String) : ValidationResult :=
  if jsTrim query = "" then ⟨false, some "Query cannot be empty"⟩
  else if (jsTrim query).length < 2 then
    ⟨false, some "Query must be at least 2 characters long"⟩
  else if query.length > 200 then
    ⟨false, some "Query must be less than 200 characters"⟩
  else if hasDangerous query then
    ⟨false, some "Query contains potentially dangerous content"⟩
  else if hasSqlPattern query then
    ⟨false, some "Query contains potentially dangerous SQL content"⟩
  else if tooManySpecialChars query then
    ⟨false, some "Query contains too many special characters"⟩
  else ⟨true, none⟩

/-- Outcome of the synchronous validation prefix of handleSearch in the
useSearch hook: an empty trim returns null silently, a failed check returns
null after recording a validation error, and otherwise the network call is
reached. -/
inductive Preflight
  | emptyReturn
  | rejected (message : String)
  | proceed
  deriving DecidableEq

/-- The validation prefix of handleSearch, in source order. -/
def handleSearchPreflight (query : String) : Preflight :=
  if jsTrim query = "" then .emptyReturn
  else if (jsTrim query).length < 2 then
    .rejected "Query must be at least 2 characters long"
  else if query.length > 200 then
    .rejected "Query must be less than 200 characters"
  else if hasDangerous query then
    .rejected "Query contains potentially dangerous content"
  else if hasSqlPattern query then
    .rejected "Query contains potentially dangerous SQL content"
  else if tooManySpecialChars query then
    .rejected "Query contains too many special characters"
  else .proceed

/-- One entry of the 422 detail list of the backend. -/
structure LocMsg where
  loc : Option (List String)
  msg : String
  deriving DecidableEq

/-- The detail field of an error response body: either a plain string or a
list of field errors. -/
inductive DetailVal
  | str (s : String)
  | arr (entries : List LocMsg)
  deriving DecidableEq

/-- The received HTTP response attached to an axios error. -/
structure AxiosResponse where
  status : Nat
  detail : Option DetailVal
  deriving DecidableEq

/-- An axios failure: an optional response and the low-level message. A
transport failure carries no response. An absent or empty message is the
empty string. -/
structure AxiosError where
  response : Option AxiosResponse
  message : String
  deriving DecidableEq

/-- JavaScript truthiness of a present detail value: the empty string is
falsy, every other string and every array is truthy. -/
def detailTruthy : DetailVal → Bool
  | .str s => !(s == "")
  | .arr _ => true

/-- One mapped field error of the structured validation failure. -/
structure FieldErr where
  field : String
  message : String
  typ : String
  deriving DecidableEq

/-- The structured error object the gateway serializes into the thrown Error
message. Absent fields of a branch are none or the empty list. -/
structure GatewayError where
  typ : String
  message : DetailVal
  errors : List FieldErr
  status : Option Nat
  originalError : Option String
  deriving DecidableEq

/-- Fallback text of the network failure branch. -/
def networkDefaultMsg : String :=
  "Network error. Please check your connection and try again."

/-- Field path of one 422 entry: the loc list joined with a dot when truthy,
the literal query otherwise. -/
def locToField : Option (List String) → String
  | some l => String.intercalate "." l
  | none => "query"

/-- Mapping of one 422 detail entry into a field error. -/
def mapFieldErr (en : LocMsg) : FieldErr :=
  ⟨locToField en.loc, en.msg, "validation"⟩

/-- The api branch of the gateway failure classifier. -/
def apiFailure (d : DetailVal) (status : Nat) : GatewayError :=
  ⟨"api", d, [], some status, none⟩

/-- The network branch of the gateway failure classifier. -/
def networkFailure (m : String) : GatewayError :=
  ⟨"network", .str (if m = "" then networkDefaultMsg else m), [], none, some m⟩

/-- The failure classifier of api.searchTools: a truthy detail with status 422
and an array shape becomes a validation error with mapped field errors and a
fixed message; any other truthy detail becomes an api error carrying the
detail and status; everything else becomes a network error. -/
def searchToolsFailure (e : AxiosError) : GatewayError :=
  match e.response with
  | none => networkFailure e.message
  | some r =>
    match r.detail with
    | none => networkFailure e.message
    | some d =>
      if detailTruthy d then
        if r.status = 422 then
          match d with
          | .arr entries =>
            ⟨"validation", .str "Please check your input and try again.",
             entries.map mapFieldErr, none, none⟩
          | .str s => apiFailure (.str s) r.status
        else apiFailure d r.status
      else networkFailure e.message

/-- The natural-number form of the special-character test agrees with the
ratio comparison of the source. -/
theorem tooManySpecialChars_iff (q : String) :
    tooManySpecialChars q = true ↔
      (specialCharCount q : ℚ) > (q.length : ℚ) * (3 / 10) := by
  unfold tooManySpecialChars
  rw [decide_eq_true_iff]
  constructor
  · intro h
    have h1 : (3 * q.length : ℚ) < (10 * specialCharCount q : ℚ) := by
      exact_mod_cast h
    push_cast at h1
    linarith
  · intro h
    have h1 : (3 * (q.length : ℚ)) < (10 * (specialCharCount q : ℚ)) := by
      linarith
    exact_mod_cast h1

example : (validateQuery "a").isValid = false := by decide
example : handleSearchPreflight "ok" = .proceed := by decide
example : (searchToolsFailure ⟨none, ""⟩).typ = "network" := by decide

/-- One row of the fixed stage table of the progress simulator: threshold in
milliseconds, label, and the percentage bounds of the stage. -/
structure Stage where
  t : ℚ
  label : String
  min : ℚ
  max : ℚ
  deriving DecidableEq

/-- Base cap of the final stage while the request is pending. -/
def maxWhilePendingBase : ℚ := 92

/-- The fixed stage table of the source. -/
def stages : List Stage :=
  [⟨800, "Analyzing query and extracting tools...", 5, 25⟩,
   ⟨2500, "Researching individual tools...", 25, 65⟩,
   ⟨4500, "Evaluating and ranking results...", 65, 85⟩,
   ⟨6500, "Generating recommendations...", 85, maxWhilePendingBase⟩]

/-- The easing function of the source. -/
def easeOutCubic (x : ℚ) : ℚ := 1 - (1 - x) ^ 3

/-- The stepwise dynamic cap of the final stage, a function of total elapsed
time. -/
def dynamicCap (elapsedMs : ℚ) : ℚ :=
  if elapsedMs < 10000 then 92
  else if elapsedMs < 18000 then 95
  else if elapsedMs < 28000 then 97
  else 99

/-- The stage-selection loop of the tick: walk the table, stop at the first
stage whose threshold is at least the elapsed time, and fall back to the last
stage when the loop runs off the end. Returns the selected index. -/
def stageIdxAux (elapsed : ℚ) : List Stage → Nat → Nat
  | [], i => i - 1
  | s :: rest, i => if elapsed ≤ s.t then i else stageIdxAux elapsed rest (i + 1)

/-- Index of the stage the tick selects for a given elapsed time. -/
def stageIdx (elapsed : ℚ) : Nat := stageIdxAux elapsed stages 0

/-- Placeholder stage for the list lookup; the selected index is always in
range, so it is never returned. -/
def fallbackStage : Stage := ⟨800, "Analyzing query and extracting tools...", 5, 25⟩

/-- The stage the tick selects. -/
def tickCurr (elapsed : ℚ) : Stage := stages.getD (stageIdx elapsed) fallbackStage

/-- Threshold of the previous stage, zero for the first stage, as computed by
the findIndex expression of the tick. -/
def tickPrevT (elapsed : ℚ) : ℚ :=
  if 0 < stageIdx elapsed then (stages.getD (stageIdx elapsed - 1) fallbackStage).t
  else 0

/-- Span of the selected stage, floored at one millisecond. -/
def tickSpan (elapsed : ℚ) : ℚ := max 1 ((tickCurr elapsed).t - tickPrevT elapsed)

/-- Elapsed time within the selected stage, clamped to the span. -/
def tickStageElapsed (elapsed : ℚ) : ℚ :=
  min (max (elapsed - tickPrevT elapsed) 0) (tickSpan elapsed)

/-- Eased within-stage ratio of the tick. -/
def tickEased (elapsed : ℚ) : ℚ :=
  easeOutCubic (tickStageElapsed elapsed / tickSpan elapsed)

/-- Effective maximum of the selected stage: the dynamic cap for the final
stage, the configured maximum bounded by the cap otherwise. -/
def tickStageMax (elapsed : ℚ) : ℚ :=
  if stageIdx elapsed = stages.length - 1 then dynamicCap elapsed
  else min (tickCurr elapsed).max (dynamicCap elapsed)

/-- The target percentage one tick computes from the elapsed time. -/
def tickTarget (elapsed : ℚ) : ℤ :=
  ⌊(tickCurr elapsed).min + (tickStageMax elapsed - (tickCurr elapsed).min) * tickEased elapsed⌋

/-- Clamp of a rational into the unit interval. -/
def clamp01 (x : ℚ) : ℚ := max 0 (min 1 x)

/-- Target formula evaluated at a chosen stage index, written from the words
of the specification: ratio is the clamped linear position between the
previous threshold and the threshold of the stage, easing is one minus the
cube of one minus the ratio, the effective maximum of the final stage is the
dynamic cap, and the target mixes the stage minimum toward the effective
maximum. No flooring. -/
def specTargetAt (i : Nat) (elapsed : ℚ) : ℚ :=
  let st := stages.getD i fallbackStage
  let prevT := if i = 0 then 0 else (stages.getD (i - 1) fallbackStage).t
  let ratio := clamp01 ((elapsed - prevT) / (st.t - prevT))
  let eased := 1 - (1 - ratio) ^ 3
  let effMax := if i = stages.length - 1 then dynamicCap elapsed else st.max
  st.min + (effMax - st.min) * eased

/-- Stage selection as literally worded by the claim: the last stage whose
threshold is at most the elapsed time, the first stage when no threshold is,
and the final stage beyond the last threshold. -/
def lastLEAux (elapsed : ℚ) : List Stage → Nat → Nat → Nat
  | [], _, acc => acc
  | s :: rest, i, acc =>
    lastLEAux elapsed rest (i + 1) (if s.t ≤ elapsed then i else acc)

/-- Index of the last stage whose threshold is at most the elapsed time. -/
def specLastIdx (elapsed : ℚ) : Nat := lastLEAux elapsed stages 0 0

/-- The per-tick target exactly as the claim words it: last stage whose
threshold is at most the elapsed time, eased clamped ratio, dynamic cap on the
final stage, no flooring. -/
def specLiteralTarget (elapsed : ℚ) : ℚ :=
  specTargetAt (specLastIdx elapsed) elapsed

/-- First index whose stage threshold is at least the elapsed time. -/
def firstIdxGE (elapsed : ℚ) : List Stage → Option Nat
  | [] => none
  | s :: rest =>
    if elapsed ≤ s.t then some 0 else (firstIdxGE elapsed rest).map (· + 1)

/-- Stage selection as amended: the first stage whose threshold is at least
the elapsed time, and the final stage thereafter. -/
def specFirstIdx (elapsed : ℚ) : Nat :=
  (firstIdxGE elapsed stages).getD (stages.length - 1)

/-- The per-tick target as the amended claim words it: first stage whose
threshold is at least the elapsed time (final stage thereafter), eased clamped
ratio, dynamic cap as the effective maximum of the final stage, and the mixed
value floored to an integer. -/
def specStagedTarget (elapsed : ℚ) : ℤ :=
  ⌊specTargetAt (specFirstIdx elapsed) elapsed⌋

/-- Characterization of the stage-selection loop on the concrete table. -/
theorem stageIdx_eq (e : ℚ) :
    stageIdx e = if e ≤ 800 then 0 else if e ≤ 2500 then 1
      else if e ≤ 4500 then 2 else 3 := by
  simp [stageIdx, stages, stageIdxAux]

/-- The selected index is one of the four rows. -/
theorem stageIdx_cases (e : ℚ) :
    stageIdx e = 0 ∨ stageIdx e = 1 ∨ stageIdx e = 2 ∨ stageIdx e = 3 := by
  rw [stageIdx_eq]; split_ifs <;> simp

/-- The amended selection rule agrees with the loop of the source. -/
theorem specFirstIdx_eq_stageIdx (e : ℚ) : specFirstIdx e = stageIdx e := by
  rw [stageIdx_eq]
  simp only [specFirstIdx, firstIdxGE, stages]
  split_ifs <;> rfl

/-- The dynamic cap is at least the base cap. -/
theorem dynamicCap_ge (e : ℚ) : 92 ≤ dynamicCap e := by
  unfold dynamicCap; split_ifs <;> norm_num

/-- The dynamic cap never reaches one hundred. -/
theorem dynamicCap_le (e : ℚ) : dynamicCap e ≤ 99 := by
  unfold dynamicCap; split_ifs <;> norm_num

/-- Clamping before a positive division equals clamping the quotient. -/
theorem minmax_div_clamp (x c : ℚ) (hc : 0 < c) :
    min (max x 0) c / c = clamp01 (x / c) := by
  unfold clamp01
  rcases le_total x 0 with hx | hx
  · have hdiv : x / c ≤ 0 := div_nonpos_iff.mpr (Or.inr ⟨hx, hc.le⟩)
    rw [max_eq_right hx, min_eq_left hc.le, zero_div,
      min_eq_right (hdiv.trans zero_le_one), max_eq_left hdiv]
  · rcases le_total x c with hxc | hxc
    · have h0 : 0 ≤ x / c := div_nonneg hx hc.le
      have h1 : x / c ≤ 1 := (div_le_one hc).mpr hxc
      rw [max_eq_left hx, min_eq_left hxc, min_eq_right h1, max_eq_right h0]
    · have h1 : 1 ≤ x / c := (one_le_div hc).mpr hxc
      rw [max_eq_left hx, min_eq_right hxc, div_self hc.ne',
        min_eq_left h1, max_eq_right zero_le_one]

/-- The span of the selected stage is positive. -/
theorem tickSpan_pos (e : ℚ) : 0 < tickSpan e :=
  lt_of_lt_of_le one_pos (le_max_left 1 _)

/-- The eased ratio of a tick lies in the unit interval. -/
theorem tickEased_mem (e : ℚ) : 0 ≤ tickEased e ∧ tickEased e ≤ 1 := by
  have hspan := tickSpan_pos e
  have h0 : 0 ≤ tickStageElapsed e :=
    le_min (le_max_right _ _) hspan.le
  have h1 : tickStageElapsed e ≤ tickSpan e := min_le_right _ _
  have hr0 : 0 ≤ tickStageElapsed e / tickSpan e := div_nonneg h0 hspan.le
  have hr1 : tickStageElapsed e / tickSpan e ≤ 1 := (div_le_one hspan).mpr h1
  unfold tickEased easeOutCubic
  set r := tickStageElapsed e / tickSpan e
  have hc0 : 0 ≤ (1 - r) ^ 3 := pow_nonneg (by linarith) 3
  have hc1 : (1 - r) ^ 3 ≤ 1 := pow_le_one₀ (by linarith) (by linarith)
  constructor <;> linarith

/-- Bounds of the selected stage row: the minimum is below the effective
maximum and the effective maximum never reaches one hundred. -/
theorem tickStage_bounds (e : ℚ) :
    (tickCurr e).min ≤ tickStageMax e ∧ tickStageMax e ≤ 99 := by
  have hge := dynamicCap_ge e
  have hle := dynamicCap_le e
  simp only [tickCurr, tickStageMax]
  rcases stageIdx_cases e with h | h | h | h <;> rw [h]
  · constructor
    · show (5 : ℚ) ≤ min 25 (dynamicCap e)
      exact le_min (by norm_num) (by linarith)
    · show min (25 : ℚ) (dynamicCap e) ≤ 99
      exact le_trans (min_le_left _ _) (by norm_num)
  · constructor
    · show (25 : ℚ) ≤ min 65 (dynamicCap e)
      exact le_min (by norm_num) (by linarith)
    · show min (65 : ℚ) (dynamicCap e) ≤ 99
      exact le_trans (min_le_left _ _) (by norm_num)
  · constructor
    · show (65 : ℚ) ≤ min 85 (dynamicCap e)
      exact le_min (by norm_num) (by linarith)
    · show min (85 : ℚ) (dynamicCap e) ≤ 99
      exact le_trans (min_le_left _ _) (by norm_num)
  · constructor
    · show (85 : ℚ) ≤ dynamicCap e
      linarith
    · exact hle

/-- No tick target ever reaches one hundred. -/
theorem tickTarget_le (e : ℚ) : tickTarget e ≤ 99 := by
  obtain ⟨he0, he1⟩ := tickEased_mem e
  obtain ⟨hm, hM⟩ := tickStage_bounds e
  have hval : (tickCurr e).min + (tickStageMax e - (tickCurr e).min) * tickEased e ≤ 99 := by
    have := mul_le_of_le_one_right (sub_nonneg.mpr hm) he1
    linarith
  calc tickTarget e ≤ ⌊(99 : ℚ)⌋ := Int.floor_le_floor hval
    _ = 99 := by norm_num

/-- Claim C4 (amended): each tick target is a pure function of elapsed time
and the fixed stage table: the current stage is the first whose threshold is
at least the elapsed time (the final stage thereafter); the ratio is the
clamped linear position inside the stage; easing is one minus the cube of one
minus the ratio; the effective maximum of the final stage is the dynamic cap
(ninety-two below ten seconds, ninety-five below eighteen, ninety-seven below
twenty-eight, ninety-nine beyond) while earlier stages keep their configured
maximum; and the published target is the floor of min plus the eased mix up
to the effective maximum. -/
theorem tickTarget_characterization (e : ℚ) : tickTarget e = specStagedTarget e := by
  have hcap := dynamicCap_ge e
  have harg : (tickCurr e).min + (tickStageMax e - (tickCurr e).min) * tickEased e
      = specTargetAt (specFirstIdx e) e := by
    rw [specFirstIdx_eq_stageIdx]
    simp only [specTargetAt, tickStageMax, tickEased, tickStageElapsed, tickSpan,
      tickPrevT, tickCurr, easeOutCubic]
    rcases stageIdx_cases e with h | h | h | h <;> rw [h]
    · show (5 : ℚ) + (min (25 : ℚ) (dynamicCap e) - 5) *
            (1 - (1 - min (max (e - 0) 0) (max 1 ((800 : ℚ) - 0)) / max 1 ((800 : ℚ) - 0)) ^ 3)
          = 5 + ((25 : ℚ) - 5) * (1 - (1 - clamp01 ((e - 0) / ((800 : ℚ) - 0))) ^ 3)
      rw [max_eq_right (by norm_num : (1 : ℚ) ≤ 800 - 0),
        minmax_div_clamp _ _ (by norm_num : (0 : ℚ) < 800 - 0),
        min_eq_left (le_trans (by norm_num) hcap : (25 : ℚ) ≤ dynamicCap e)]
    · show (25 : ℚ) + (min (65 : ℚ) (dynamicCap e) - 25) *
            (1 - (1 - min (max (e - 800) 0) (max 1 ((2500 : ℚ) - 800)) / max 1 ((2500 : ℚ) - 800)) ^ 3)
          = 25 + ((65 : ℚ) - 25) * (1 - (1 - clamp01 ((e - 800) / ((2500 : ℚ) - 800))) ^ 3)
      rw [max_eq_right (by norm_num : (1 : ℚ) ≤ 2500 - 800),
        minmax_div_clamp _ _ (by norm_num : (0 : ℚ) < 2500 - 800),
        min_eq_left (le_trans (by norm_num) hcap : (65 : ℚ) ≤ dynamicCap e)]
    · show (65 : ℚ) + (min (85 : ℚ) (dynamicCap e) - 65) *
            (1 - (1 - min (max (e - 2500) 0) (max 1 ((4500 : ℚ) - 2500)) / max 1 ((4500 : ℚ) - 2500)) ^ 3)
          = 65 + ((85 : ℚ) - 65) * (1 - (1 - clamp01 ((e - 2500) / ((4500 : ℚ) - 2500))) ^ 3)
      rw [max_eq_right (by norm_num : (1 : ℚ) ≤ 4500 - 2500),
        minmax_div_clamp _ _ (by norm_num : (0 : ℚ) < 4500 - 2500),
        min_eq_left (le_trans (by norm_num) hcap : (85 : ℚ) ≤ dynamicCap e)]
    · show (85 : ℚ) + (dynamicCap e - 85) *
            (1 - (1 - min (max (e - 4500) 0) (max 1 ((6500 : ℚ) - 4500)) / max 1 ((6500 : ℚ) - 4500)) ^ 3)
          = 85 + (dynamicCap e - 85) * (1 - (1 - clamp01 ((e - 4500) / ((6500 : ℚ) - 4500))) ^ 3)
      rw [max_eq_right (by norm_num : (1 : ℚ) ≤ 6500 - 4500),
        minmax_div_clamp _ _ (by norm_num : (0 : ℚ) < 6500 - 4500)]
  unfold tickTarget specStagedTarget
  rw [harg]

/-- Row zero of the stage table. -/
theorem stages_getD_zero :
    stages.getD 0 fallbackStage = ⟨800, "Analyzing query and extracting tools...", 5, 25⟩ := rfl

/-- Row one of the stage table. -/
theorem stages_getD_one :
    stages.getD 1 fallbackStage = ⟨2500, "Researching individual tools...", 25, 65⟩ := rfl

/-- Row two of the stage table. -/
theorem stages_getD_two :
    stages.getD 2 fallbackStage = ⟨4500, "Evaluating and ranking results...", 65, 85⟩ := rfl

/-- Row three of the stage table. -/
theorem stages_getD_three :
    stages.getD 3 fallbackStage = ⟨6500, "Generating recommendations...", 85, 92⟩ := rfl

/-- The table has four rows. -/
theorem stages_length : stages.length = 4 := rfl

/-- Concrete tick target in the middle of the second stage. -/
theorem tickTarget_1000 : tickTarget 1000 = 37 := by
  have h1 : stageIdx 1000 = 1 := by rw [stageIdx_eq]; norm_num
  have hcurr : tickCurr 1000 = ⟨2500, "Researching individual tools...", 25, 65⟩ := by
    simp only [tickCurr, h1, stages_getD_one]
  have hprev : tickPrevT 1000 = 800 := by
    simp only [tickPrevT, h1, show (1 : ℕ) - 1 = 0 from rfl, stages_getD_zero]
    norm_num
  have hspan : tickSpan 1000 = 1700 := by
    simp only [tickSpan, hcurr, hprev]
    norm_num [max_def]
  have hse : tickStageElapsed 1000 = 200 := by
    simp only [tickStageElapsed, hprev, hspan]
    norm_num [min_def, max_def]
  have heas : tickEased 1000 = 1538 / 4913 := by
    simp only [tickEased, hse, hspan, easeOutCubic]
    norm_num
  have hmax : tickStageMax 1000 = 65 := by
    simp only [tickStageMax, h1, stages_length, tickCurr, stages_getD_one, dynamicCap]
    norm_num [min_def]
  simp only [tickTarget, hcurr, hmax, heas]
  rw [Int.floor_eq_iff]
  norm_num

/-- Concrete tick target in the middle of the first stage. -/
theorem tickTarget_400 : tickTarget 400 = 22 := by
  have h1 : stageIdx 400 = 0 := by rw [stageIdx_eq]; norm_num
  have hcurr : tickCurr 400 = ⟨800, "Analyzing query and extracting tools...", 5, 25⟩ := by
    simp only [tickCurr, h1, stages_getD_zero]
  have hprev : tickPrevT 400 = 0 := by
    simp only [tickPrevT, h1]
    norm_num
  have hspan : tickSpan 400 = 800 := by
    simp only [tickSpan, hcurr, hprev]
    norm_num [max_def]
  have hse : tickStageElapsed 400 = 400 := by
    simp only [tickStageElapsed, hprev, hspan]
    norm_num [min_def, max_def]
  have heas : tickEased 400 = 7 / 8 := by
    simp only [tickEased, hse, hspan, easeOutCubic]
    norm_num
  have hmax : tickStageMax 400 = 25 := by
    simp only [tickStageMax, h1, stages_length, tickCurr, stages_getD_zero, dynamicCap]
    norm_num [min_def]
  simp only [tickTarget, hcurr, hmax, heas]
  rw [Int.floor_eq_iff]
  norm_num

/-- Literal selection rule of the claim at one second of elapsed time. -/
theorem specLastIdx_1000 : specLastIdx 1000 = 0 := by
  simp only [specLastIdx, lastLEAux, stages]
  norm_num

/-- Literal selection rule of the claim at four hundred milliseconds. -/
theorem specLastIdx_400 : specLastIdx 400 = 0 := by
  simp only [specLastIdx, lastLEAux, stages]
  norm_num

/-- Value of the literally worded formula at one second. -/
theorem specLiteralTarget_1000 : specLiteralTarget 1000 = 25 := by
  simp only [specLiteralTarget, specTargetAt, specLastIdx_1000, stages_getD_zero,
    stages_length, clamp01, dynamicCap]
  norm_num [min_def, max_def]

/-- Value of the literally worded formula at four hundred milliseconds. -/
theorem specLiteralTarget_400 : specLiteralTarget 400 = 45 / 2 := by
  simp only [specLiteralTarget, specTargetAt, specLastIdx_400, stages_getD_zero,
    stages_length, clamp01, dynamicCap]
  norm_num [min_def, max_def]

/-- The error value handleSearch stores in its error state: a client-side
validation record, the parsed structured gateway error, or the unknown
fallback when the thrown message is not JSON. -/
inductive ErrVal
  | clientValidation (message : String)
  | parsed (g : GatewayError)
  | unknownMsg (message : String)
  deriving DecidableEq

/-- State of the useSearch hook together with the bookkeeping the event loop
needs: the four published fields, the interval ref, the set of interval ids
created and not yet cleared, the generations whose network call is still in
flight, the number of scheduled completion-hold timeouts, and a fresh-id
counter. Interval ids start at one, matching the positive ids of the browser.
A generation is identified with the interval id its submission created. -/
structure HookState where
  loading : Bool
  loadingProgress : ℤ
  loadingStage : String
  error : Option ErrVal
  tickerRef : Option ℕ
  activeTickers : List ℕ
  inFlight : List ℕ
  pendingHolds : ℕ
  nextId : ℕ
  deriving DecidableEq

/-- Initial hook state. -/
def initState : HookState :=
  ⟨false, 0, "", none, none, [], [], 0, 1⟩

/-- The synchronous successful-validation prefix of handleSearch up to and
including the setInterval call: publish loading, reset progress and stage,
clear the error, store the new interval id in the ref without clearing the
previous interval, and start the network call. -/
def submitStart (s : HookState) : HookState :=
  { s with loading := true, loadingProgress := 0,
           loadingStage := "Initializing...",
           error := none,
           tickerRef := some s.nextId,
           activeTickers := s.nextId :: s.activeTickers,
           inFlight := s.nextId :: s.inFlight,
           nextId := s.nextId + 1 }

/-- The guarded clearInterval of the source: clear whatever interval id the
ref currently holds, if any, and null the ref. -/
def clearTickerRef (s : HookState) : HookState :=
  match s.tickerRef with
  | some tid => { s with tickerRef := none, activeTickers := s.activeTickers.erase tid }
  | none => s

/-- Resumption of handleSearch after a successful network call of generation
g: publish one hundred and the completion label, clear the referenced
interval, and schedule the completion-hold timeout. -/
def successStep (g : ℕ) (s : HookState) : HookState :=
  let s1 := clearTickerRef
    { s with loadingProgress := 100, loadingStage := "✅ Research complete!" }
  { s1 with inFlight := s1.inFlight.erase g, pendingHolds := s1.pendingHolds + 1 }

/-- The completion-hold timeout body: clear loading, progress and stage. -/
def holdStep (s : HookState) : HookState :=
  { s with loading := false, loadingProgress := 0, loadingStage := "",
           pendingHolds := s.pendingHolds - 1 }

/-- The catch block of handleSearch for generation g: clear the referenced
interval, clear loading, progress and stage, and store the parsed error. -/
def errorStep (g : ℕ) (err : ErrVal) (s : HookState) : HookState :=
  let s1 := clearTickerRef s
  { s1 with loading := false, loadingProgress := 0, loadingStage := "",
            error := some err, inFlight := s1.inFlight.erase g }

/-- One tick of an interval: publish the stage label of the selected stage
and raise the progress to the target if the target is larger. The body reads
only the elapsed time; nothing in it checks which generation the interval
belongs to. -/
def tickStep (elapsed : ℚ) (s : HookState) : HookState :=
  { s with loadingStage := (tickCurr elapsed).label,
           loadingProgress :=
             if tickTarget elapsed > s.loadingProgress then tickTarget elapsed
             else s.loadingProgress }

/-- A call of handleSearch: run the validation prefix; an empty trim returns
with no state change, a rejected query records the validation error, and a
valid query runs the submission prefix. -/
def submitStep (q : String) (s : HookState) : HookState :=
  match handleSearchPreflight q with
  | .emptyReturn => s
  | .rejected m => { s with error := some (.clientValidation m) }
  | .proceed => submitStart s

/-- Events of the cooperative scheduler: a handleSearch call, a tick of a
still-active interval, the resolution of an in-flight network call with
success or failure, and the firing of a scheduled completion-hold timeout. -/
inductive Ev
  | submit (q : String)
  | tick (g : ℕ) (elapsed : ℚ)
  | success (g : ℕ)
  | fail (g : ℕ) (err : ErrVal)
  | hold
  deriving DecidableEq

/-- One scheduler step: an event fires only when its source is live. A tick
needs its interval to be uncleared, a resolution needs its generation to be
in flight, a hold needs a scheduled timeout. -/
def hookStep (s : HookState) : Ev → Option HookState
  | .submit q => some (submitStep q s)
  | .tick g e => if g ∈ s.activeTickers then some (tickStep e s) else none
  | .success g => if g ∈ s.inFlight then some (successStep g s) else none
  | .fail g err => if g ∈ s.inFlight then some (errorStep g err s) else none
  | .hold => if 0 < s.pendingHolds then some (holdStep s) else none

/-- Run of an event trace from a state. -/
def hookRun (s : HookState) : List Ev → Option HookState
  | [] => some s
  | e :: tr =>
    match hookStep s e with
    | some s1 => hookRun s1 tr
    | none => none

/-- Whether a trace contains a successful resolution. -/
def hasSuccessEv : List Ev → Bool
  | [] => false
  | Ev.success _ :: _ => true
  | _ :: tr => hasSuccessEv tr

/-- One toast of the toast container. -/
structure Toast where
  id : ℚ
  message : String
  typ : String
  duration : ℚ
  deriving DecidableEq

/-- The addToast updater of ToastContainer: when a toast with the same
message and type is already present the list is returned unchanged, otherwise
the new toast is appended. The id produced by the clock-and-random expression
is a parameter. -/
def addToast (message typ : String) (duration id : ℚ) (prev : List Toast) : List Toast :=
  if prev.any (fun t => decide (t.message = message ∧ t.typ = typ)) then prev
  else prev ++ [⟨id, message, typ, duration⟩]

/-- The removeToast updater of ToastContainer. -/
def removeToast (id : ℚ) (l : List Toast) : List Toast :=
  l.filter fun t => decide (¬ t.id = id)

/-- Toast lists reachable from the initial empty list through the two
updaters. -/
inductive ToastReachable : List Toast → Prop
  | init : ToastReachable []
  | add (message typ : String) (duration id : ℚ) {l : List Toast} :
      ToastReachable l → ToastReachable (addToast message typ duration id l)
  | remove (id : ℚ) {l : List Toast} :
      ToastReachable l → ToastReachable (removeToast id l)

/-- Clearing the interval ref leaves the ref empty. -/
theorem clearTickerRef_tickerRef (s : HookState) : (clearTickerRef s).tickerRef = none := by
  unfold clearTickerRef
  cases h : s.tickerRef <;> simp [h]

/-- Clearing the interval ref does not touch the published fields. -/
theorem clearTickerRef_published (s : HookState) :
    (clearTickerRef s).loading = s.loading ∧
    (clearTickerRef s).loadingProgress = s.loadingProgress ∧
    (clearTickerRef s).loadingStage = s.loadingStage ∧
    (clearTickerRef s).error = s.error := by
  unfold clearTickerRef
  cases s.tickerRef <;> simp

/-- The success handler publishes exactly one hundred. -/
theorem successStep_progress (g : ℕ) (s : HookState) :
    (successStep g s).loadingProgress = 100 := by
  simp only [successStep]
  rw [(clearTickerRef_published _).2.1]

/-- A tick never lowers the published progress. -/
theorem tickStep_progress_mono (e : ℚ) (s : HookState) :
    s.loadingProgress ≤ (tickStep e s).loadingProgress := by
  simp only [tickStep]
  split_ifs <;> omega

/-- A tick keeps the published progress below one hundred. -/
theorem tickStep_progress_le (e : ℚ) (s : HookState) (h : s.loadingProgress ≤ 99) :
    (tickStep e s).loadingProgress ≤ 99 := by
  have := tickTarget_le e
  simp only [tickStep]
  split_ifs <;> omega

/-- A handleSearch call keeps the published progress below one hundred. -/
theorem submitStep_progress_le (q : String) (s : HookState) (h : s.loadingProgress ≤ 99) :
    (submitStep q s).loadingProgress ≤ 99 := by
  unfold submitStep
  cases handleSearchPreflight q
  · exact h
  · exact h
  · norm_num [submitStart]

/-- A trace with no successful resolution has none in its tail and its head
is not a success. -/
theorem hasSuccessEv_cons {e : Ev} {tr : List Ev} (h : hasSuccessEv (e :: tr) = false) :
    hasSuccessEv tr = false ∧ ∀ g, e ≠ Ev.success g := by
  cases e <;> simp_all [hasSuccessEv]

/-- Any non-success step keeps the published progress below one hundred. -/
theorem hookStep_progress_le (s s' : HookState) (e : Ev) (h99 : s.loadingProgress ≤ 99)
    (hne : ∀ g, e ≠ Ev.success g) (h : hookStep s e = some s') :
    s'.loadingProgress ≤ 99 := by
  cases e with
  | submit q =>
    simp only [hookStep] at h
    injection h with h
    subst h
    exact submitStep_progress_le q s h99
  | tick g el =>
    simp only [hookStep] at h
    split_ifs at h
    injection h with h
    subst h
    exact tickStep_progress_le el s h99
  | success g => exact absurd rfl (hne g)
  | fail g err =>
    simp only [hookStep] at h
    split_ifs at h
    injection h with h
    subst h
    show (0 : ℤ) ≤ 99
    norm_num
  | hold =>
    simp only [hookStep] at h
    split_ifs at h
    injection h with h
    subst h
    show (0 : ℤ) ≤ 99
    norm_num

/-- Along any trace with no successful resolution, the published progress
stays below one hundred. -/
theorem hookRun_progress_le (tr : List Ev) :
    ∀ s0 s : HookState, s0.loadingProgress ≤ 99 → hasSuccessEv tr = false →
      hookRun s0 tr = some s → s.loadingProgress ≤ 99 := by
  induction tr with
  | nil =>
    intro s0 s h0 _ hrun
    simp only [hookRun] at hrun
    injection hrun with hrun
    subst hrun
    exact h0
  | cons e tr ih =>
    intro s0 s h0 hsucc hrun
    obtain ⟨hsucc1, hne⟩ := hasSuccessEv_cons hsucc
    rw [hookRun] at hrun
    cases hstep : hookStep s0 e with
    | none => simp [hstep] at hrun
    | some s1 =>
      simp only [hstep] at hrun
      exact ih s1 s (hookStep_progress_le s0 s1 e h0 hne hstep) hsucc1 hrun

/-- Published progress values along a sequence of ticks, starting from the
current value. -/
def tickProgressList (s : HookState) : List ℚ → List ℤ
  | [] => [s.loadingProgress]
  | e :: es => s.loadingProgress :: tickProgressList (tickStep e s) es

/-- The first published value of a tick sequence is the current one. -/
theorem tickProgressList_head (s : HookState) (es : List ℚ) :
    (tickProgressList s es).head? = some s.loadingProgress := by
  cases es <;> rfl

/-- The stage selected at five seconds of elapsed time. -/
theorem tickCurr_5000 :
    tickCurr 5000 = ⟨6500, "Generating recommendations...", 85, 92⟩ := by
  have h1 : stageIdx 5000 = 3 := by rw [stageIdx_eq]; norm_num
  simp only [tickCurr, h1, stages_getD_three]

/-- Concrete tick target at five seconds of elapsed time. -/
theorem tickTarget_5000 : tickTarget 5000 = 89 := by
  have h1 : stageIdx 5000 = 3 := by rw [stageIdx_eq]; norm_num
  have hprev : tickPrevT 5000 = 4500 := by
    simp only [tickPrevT, h1, show (3 : ℕ) - 1 = 2 from rfl, stages_getD_two]
    norm_num
  have hspan : tickSpan 5000 = 2000 := by
    simp only [tickSpan, tickCurr_5000, hprev]
    norm_num [max_def]
  have hse : tickStageElapsed 5000 = 500 := by
    simp only [tickStageElapsed, hprev, hspan]
    norm_num [min_def, max_def]
  have heas : tickEased 5000 = 37 / 64 := by
    simp only [tickEased, hse, hspan, easeOutCubic]
    norm_num
  have hmax : tickStageMax 5000 = 92 := by
    simp only [tickStageMax, h1, stages_length, dynamicCap]
    norm_num
  simp only [tickTarget, tickCurr_5000, hmax, heas]
  rw [Int.floor_eq_iff]
  norm_num

/-- Claim C1: the source lacks any generation token, so a superseded
submission still mutates the published state. Running submit of a valid
query twice leaves the first interval active and both requests in flight;
when the first request then resolves successfully, its handler publishes one
hundred and the completion label and clears the interval of the second
submission, and a tick of the stale first interval overwrites the progress
and stage of the second submission. -/
theorem handleSearch_stale_resolution_mutates :
    (hookRun initState [Ev.submit "aa", Ev.submit "bb"]).map
        (fun s => (s.loading, s.loadingProgress, s.loadingStage, s.tickerRef,
          s.activeTickers, s.inFlight)) =
      some (true, 0, "Initializing...", some 2, [2, 1], [2, 1]) ∧
    (hookRun initState [Ev.submit "aa", Ev.submit "bb", Ev.success 1]).map
        (fun s => (s.loadingProgress, s.loadingStage, s.activeTickers, s.inFlight)) =
      some (100, "✅ Research complete!", [1], [2]) ∧
    (hookRun initState [Ev.submit "aa", Ev.submit "bb", Ev.tick 1 5000]).map
        (fun s => (s.loadingProgress, s.loadingStage)) =
      some (89, "Generating recommendations...") := by
  refine ⟨rfl, rfl, ?_⟩
  have hrun : hookRun initState [Ev.submit "aa", Ev.submit "bb", Ev.tick 1 5000]
      = some (tickStep 5000 ⟨true, 0, "Initializing...", none, some 2, [2, 1], [2, 1], 0, 3⟩) := rfl
  rw [hrun]
  simp only [tickStep, tickCurr_5000, tickTarget_5000]
  norm_num

/-- Claim C2 (counterexample): immediately after a successful resolution the
hook still publishes a true loading flag together with a progress of one
hundred, for the seven hundred millisecond completion hold, so the published
progress is not below one hundred at every instant at which loading is true. -/
theorem loading_with_progress100_cex :
    (hookRun initState [Ev.submit "ok", Ev.success 1]).map
      (fun s => (s.loading, s.loadingProgress)) = some (true, 100) := rfl

/-- Claim C2 (amended): while the network call is unresolved — along any
trace without a successful resolution — the published progress is strictly
below one hundred, and the success handler publishes exactly one hundred the
moment it runs, while loading stays true until the completion hold fires. -/
theorem progress_lt_100_until_success :
    (∀ (tr : List Ev) (s : HookState), hookRun initState tr = some s →
        hasSuccessEv tr = false → s.loadingProgress < 100) ∧
    (∀ (g : ℕ) (s : HookState), (successStep g s).loadingProgress = 100) := by
  constructor
  · intro tr s hrun hsucc
    have h : s.loadingProgress ≤ 99 :=
      hookRun_progress_le tr initState s (by norm_num [initState]) hsucc hrun
    omega
  · exact successStep_progress

/-- Witness for the amended claim C2 at a concrete one-submission trace. -/
theorem progress_lt_100_until_success_witness :
    hookRun initState [Ev.submit "ok"] = some (submitStart initState) ∧
    hasSuccessEv [Ev.submit "ok"] = false ∧
    (submitStart initState).loadingProgress < 100 :=
  ⟨rfl, rfl,
   progress_lt_100_until_success.1 [Ev.submit "ok"] (submitStart initState) rfl rfl⟩

/-- Claim C3: one tick publishes the maximum of the current progress and the
tick target, and along any sequence of ticks the published progress values
are non-decreasing. -/
theorem tick_publishes_max_monotone :
    (∀ (e : ℚ) (s : HookState),
        (tickStep e s).loadingProgress = max s.loadingProgress (tickTarget e)) ∧
    (∀ (es : List ℚ) (s : HookState),
        List.Chain' (· ≤ ·) (tickProgressList s es)) := by
  constructor
  · intro e s
    simp only [tickStep]
    split_ifs <;> omega
  · intro es
    induction es with
    | nil =>
      intro s
      simp [tickProgressList]
    | cons e es ih =>
      intro s
      rw [tickProgressList, List.chain'_cons']
      refine ⟨?_, ih _⟩
      intro y hy
      rw [tickProgressList_head] at hy
      simp only [Option.mem_def, Option.some.injEq] at hy
      subst hy
      exact tickStep_progress_mono e s

/-- Claim C6: every error path of a submission that passed validation — the
catch block, modelled by the fail event — unconditionally clears the loading
flag, resets the progress to zero, clears the stage label, clears the
interval ref, and stores the parsed error. -/
theorem error_path_resets_state (s s' : HookState) (g : ℕ) (err : ErrVal)
    (h : hookStep s (Ev.fail g err) = some s') :
    s'.loading = false ∧ s'.loadingProgress = 0 ∧ s'.loadingStage = "" ∧
    s'.tickerRef = none ∧ s'.error = some err := by
  simp only [hookStep] at h
  split_ifs at h
  injection h with h
  subst h
  exact ⟨rfl, rfl, rfl, clearTickerRef_tickerRef s, rfl⟩

/-- Witness for claim C6 at a concrete failing submission. -/
theorem error_path_resets_state_witness :
    hookStep (submitStart initState) (Ev.fail 1 (ErrVal.unknownMsg "boom")) =
      some (errorStep 1 (ErrVal.unknownMsg "boom") (submitStart initState)) ∧
    ((errorStep 1 (ErrVal.unknownMsg "boom") (submitStart initState)).loading = false ∧
      (errorStep 1 (ErrVal.unknownMsg "boom") (submitStart initState)).loadingProgress = 0 ∧
      (errorStep 1 (ErrVal.unknownMsg "boom") (submitStart initState)).loadingStage = "" ∧
      (errorStep 1 (ErrVal.unknownMsg "boom") (submitStart initState)).tickerRef = none ∧
      (errorStep 1 (ErrVal.unknownMsg "boom") (submitStart initState)).error =
        some (ErrVal.unknownMsg "boom")) :=
  ⟨rfl, error_path_resets_state (submitStart initState) _ 1 (ErrVal.unknownMsg "boom") rfl⟩

/-- Claim C4 (counterexample): the tick formula as literally stated disagrees
with the code. At one second of elapsed time the stated selection rule — the
last stage whose threshold is at most the elapsed time — picks the first
stage and the stated formula yields twenty-five, while the tick publishes
thirty-seven; at four hundred milliseconds both selection rules pick the
first stage, yet the stated unfloored value is forty-five halves while the
tick publishes the floored twenty-two. -/
theorem tick_formula_literal_cex :
    specLiteralTarget 1000 = 25 ∧ tickTarget 1000 = 37 ∧
    specLiteralTarget 1000 ≠ ((tickTarget 1000 : ℤ) : ℚ) ∧
    specLiteralTarget 400 = 45 / 2 ∧ tickTarget 400 = 22 ∧
    specLiteralTarget 400 ≠ ((tickTarget 400 : ℤ) : ℚ) := by
  refine ⟨specLiteralTarget_1000, tickTarget_1000, ?_, specLiteralTarget_400,
    tickTarget_400, ?_⟩
  · rw [specLiteralTarget_1000, tickTarget_1000]
    norm_num
  · rw [specLiteralTarget_400, tickTarget_400]
    norm_num

/-- The concrete 422 failure of the claim: a response with status 422 whose
detail is one entry locating body and query with a too-short message. -/
def cex422 : AxiosError :=
  ⟨some ⟨422, some (.arr [⟨some ["body", "query"], "too short"⟩])⟩,
   "Request failed with status code 422"⟩

/-- Claim C5 (counterexample): on the 422 response of the claim the gateway
produces the discriminant validation, not serverValidation; the field mapping
itself is as described. -/
theorem gateway_422_kind_cex :
    (searchToolsFailure cex422).typ = "validation" ∧
    ¬(searchToolsFailure cex422).typ = "serverValidation" ∧
    (searchToolsFailure cex422).errors = [⟨"body.query", "too short", "validation"⟩] :=
  ⟨rfl, by decide, rfl⟩

/-- Claim C5 (amended): every 422 response carrying a list of field errors
yields a structured error whose discriminant is validation — the source does
not distinguish server-side from client-side validation in the discriminant —
whose field errors join each location path with a dot next to its message,
and whose overall message is the fixed check-your-input text. -/
theorem gateway_422_validation_shape (e : AxiosError) (r : AxiosResponse)
    (entries : List LocMsg) (hr : e.response = some r) (hs : r.status = 422)
    (hd : r.detail = some (DetailVal.arr entries)) :
    (searchToolsFailure e).typ = "validation" ∧
    (searchToolsFailure e).message =
      DetailVal.str "Please check your input and try again." ∧
    (searchToolsFailure e).errors = entries.map mapFieldErr := by
  simp [searchToolsFailure, hr, hd, hs, detailTruthy]

/-- Witness for the amended claim C5 at the concrete 422 response. -/
theorem gateway_422_validation_shape_witness :
    cex422.response =
      some ⟨422, some (DetailVal.arr [⟨some ["body", "query"], "too short"⟩])⟩ ∧
    ((searchToolsFailure cex422).typ = "validation" ∧
      (searchToolsFailure cex422).message =
        DetailVal.str "Please check your input and try again." ∧
      (searchToolsFailure cex422).errors =
        ([⟨some ["body", "query"], "too short"⟩] : List LocMsg).map mapFieldErr) :=
  ⟨rfl, gateway_422_validation_shape cex422 _ _ rfl rfl rfl⟩

/-- Claim C7: a query whose trimmed length is below two or whose raw length
exceeds two hundred fails validation, and handleSearch returns before the
network call: its submission step leaves the in-flight set unchanged. -/
theorem short_or_long_query_rejected (q : String)
    (h : (jsTrim q).length < 2 ∨ q.length > 200) :
    (validateQuery q).isValid = false ∧
    handleSearchPreflight q ≠ Preflight.proceed ∧
    ∀ s : HookState, (submitStep q s).inFlight = s.inFlight := by
  have hp : handleSearchPreflight q ≠ Preflight.proceed := by
    unfold handleSearchPreflight
    split_ifs <;>
      first
        | (intro hc; exact Preflight.noConfusion hc)
        | (exfalso; rcases h with h | h <;> omega)
  refine ⟨?_, hp, ?_⟩
  · unfold validateQuery
    split_ifs <;>
      first
        | rfl
        | (exfalso; rcases h with h | h <;> omega)
  · intro s
    unfold submitStep
    cases hpre : handleSearchPreflight q
    · rfl
    · rfl
    · exact absurd hpre hp

/-- Witness for claim C7 at a one-letter query. -/
theorem short_or_long_query_rejected_witness :
    ((jsTrim "a").length < 2 ∨ "a".length > 200) ∧
    ((validateQuery "a").isValid = false ∧
      handleSearchPreflight "a" ≠ Preflight.proceed ∧
      ∀ s : HookState, (submitStep "a" s).inFlight = s.inFlight) :=
  ⟨Or.inl (by decide), short_or_long_query_rejected "a" (Or.inl (by decide))⟩

/-- Claim C8: a failure that carries no response classifies as a network
error whose message is the low-level description, with the default text when
the description is empty, and whose original-error field carries the raw
description. -/
theorem no_response_network_error (e : AxiosError) (h : e.response = none) :
    (searchToolsFailure e).typ = "network" ∧
    (searchToolsFailure e).message =
      DetailVal.str (if e.message = "" then networkDefaultMsg else e.message) ∧
    (searchToolsFailure e).originalError = some e.message := by
  simp [searchToolsFailure, h, networkFailure]

/-- Witness for claim C8 at a concrete transport failure. -/
theorem no_response_network_error_witness :
    (⟨none, "Network Error"⟩ : AxiosError).response = none ∧
    ((searchToolsFailure ⟨none, "Network Error"⟩).typ = "network" ∧
      (searchToolsFailure ⟨none, "Network Error"⟩).message =
        DetailVal.str
          (if ("Network Error" : String) = "" then networkDefaultMsg
           else "Network Error") ∧
      (searchToolsFailure ⟨none, "Network Error"⟩).originalError =
        some "Network Error") :=
  ⟨rfl, no_response_network_error ⟨none, "Network Error"⟩ rfl⟩

/-- Claim C9: adding a toast whose message and type pair already occurs
leaves the list unchanged, and consequently every toast list reachable from
the empty list has pairwise distinct message and type pairs. -/
theorem addToast_dedup_invariant :
    (∀ (m ty : String) (d i : ℚ) (l : List Toast),
        l.any (fun t => decide (t.message = m ∧ t.typ = ty)) = true →
        addToast m ty d i l = l) ∧
    (∀ l : List Toast, ToastReachable l →
        l.Pairwise fun a b => ¬(a.message = b.message ∧ a.typ = b.typ)) := by
  constructor
  · intro m ty d i l h
    unfold addToast
    rw [if_pos h]
  · intro l hl
    induction hl with
    | init => simp
    | @add m ty d i l hl ih =>
      unfold addToast
      split_ifs with h
      · exact ih
      · rw [List.pairwise_append]
        refine ⟨ih, by simp, ?_⟩
        intro a ha b hb hcon
        simp only [List.mem_singleton] at hb
        subst hb
        simp only [List.any_eq_true, decide_eq_true_eq] at h
        exact h ⟨a, ha, hcon.1, hcon.2⟩
    | @remove i l hl ih =>
      simp only [removeToast]
      exact List.Pairwise.sublist (List.filter_sublist l) ih

/-- Witness for claim C9: a duplicate add is a no-op and the empty list, a
reachable state, has pairwise distinct message and type pairs. -/
theorem addToast_dedup_invariant_witness :
    ([⟨1, "oops", "error", 5000⟩] : List Toast).any
      (fun t => decide (t.message = "oops" ∧ t.typ = "error")) = true ∧
    addToast "oops" "error" 4000 2 [⟨1, "oops", "error", 5000⟩] =
      [⟨1, "oops", "error", 5000⟩] ∧
    ToastReachable ([] : List Toast) ∧
    ([] : List Toast).Pairwise
      (fun a b => ¬(a.message = b.message ∧ a.typ = b.typ)) :=
  ⟨rfl,
   addToast_dedup_invariant.1 "oops" "error" 4000 2 [⟨1, "oops", "error", 5000⟩] rfl,
   ToastReachable.init,
   addToast_dedup_invariant.2 [] ToastReachable.init⟩

/-- Claim C10: every gateway failure classifies into exactly one of the three
structured kinds, so no failure escapes with an unstructured discriminant. -/
theorem gateway_error_kind_total (e : AxiosError) :
    (searchToolsFailure e).typ = "validation" ∨ (searchToolsFailure e).typ = "api" ∨
    (searchToolsFailure e).typ = "network" := by
  obtain ⟨resp, msg⟩ := e
  cases resp with
  | none => simp [searchToolsFailure, networkFailure]
  | some r =>
    obtain ⟨st, detail⟩ := r
    cases detail with
    | none => simp [searchToolsFailure, networkFailure]
    | some d =>
      cases d with
      | str s =>
        by_cases hs : s = ""
        · simp [searchToolsFailure, detailTruthy, hs, networkFailure]
        · by_cases h422 : st = 422 <;>
            simp [searchToolsFailure, detailTruthy, hs, h422, apiFailure]
      | arr entries =>
        by_cases h422 : st = 422 <;>
          simp [searchToolsFailure, detailTruthy, h422, apiFailure]
